import Mathlib

/-!
Verification of the musicalibre metadata pipeline (src/musicalibre.py).

This file gives a shallow embedding of the decision logic of the
repository: the metadata extractor `extract_metadata_from_title`
(lines 34-122), the per-album track counter used by `get_user_metadata`
and `download_video` (lines 152-159 and 267-272), the cover-art selection
of `download_cover_art` (lines 171-203), the file-name sanitiser and
target-path construction (lines 30-32, 205-210, 276-283), and the
`RateLimiter` (lines 389-405).  Theorems about the specification claims
follow the definitions.

Strings are modelled by their character lists.  Each Python regular
expression of the source is specialised to an executable function on
`List Char` implementing exactly the backtracking behaviour of that
pattern: lazy groups try the shortest capture first, greedy whitespace
runs try the longest first, `.` never matches a newline, `$` without
MULTILINE matches at the end of the string or before one final newline,
and with MULTILINE also before any newline.  The character classes
`\s` and `\w` and case folding are modelled on the character ranges the
repository actually feeds them (ASCII, plus the literal á appearing in
one pattern).  Network and filesystem effects are outside the embedding;
the pure selection/derivation logic that the claims are about is kept.
-/

/-- Python `\s` and `str.strip` whitespace (ASCII range). -/
def isSpace (c : Char) : Bool :=
  c == ' ' || c == '\t' || c == '\n' || c == '\r' || c == '\x0b' || c == '\x0c'

/-- Python `\w` (ASCII range): letters, digits and the underscore. -/
def isWordChar (c : Char) : Bool :=
  c.isAlphanum || c == '_'

/-- Python `str.strip()` on a character list. -/
def stripChars (l : List Char) : List Char :=
  ((l.dropWhile isSpace).reverse.dropWhile isSpace).reverse

/-- Python `str.strip()`. -/
def pstrip (s : String) : String :=
  String.mk (stripChars s.data)

/-- Effect of `re.sub(r'^\W+|\W+$', '', s)` (line 87) on a newline-free
string: remove the leading and the trailing run of non-word characters. -/
def edgeStrip (l : List Char) : List Char :=
  ((l.dropWhile (fun c => !isWordChar c)).reverse.dropWhile
    (fun c => !isWordChar c)).reverse

/-- Case folding used for `re.IGNORECASE` literals: ASCII letters plus
the accented á of the `álbum` pattern. -/
def ciLower (c : Char) : Char :=
  if c = 'Á' then 'á' else c.toLower

/-- The double-quote character (written by code point to keep the
source free of quote-escape sequences). -/
def quoteChar : Char := Char.ofNat 34

/-- The apostrophe character. -/
def aposChar : Char := Char.ofNat 39

/-- Drop a literal, case-sensitively; `some` holds the rest. -/
def dropLit : List Char → List Char → Option (List Char)
  | [], s => some s
  | _ :: _, [] => none
  | p :: ps, c :: cs => if c = p then dropLit ps cs else none

/-- Drop a literal (given in lower case), case-insensitively. -/
def dropLitCI : List Char → List Char → Option (List Char)
  | [], s => some s
  | _ :: _, [] => none
  | p :: ps, c :: cs => if ciLower c = p then dropLitCI ps cs else none

/-- Semantics of `re.search`: try a match at every position, leftmost
match first (the final, empty position included). -/
def searchAny {α : Type} (f : List Char → Option α) : List Char → Option α
  | [] => f []
  | c :: rest =>
    match f (c :: rest) with
    | some r => some r
    | none => searchAny f rest

/-! ### Thumbnails, video info and metadata records -/

/-- One entry of the `thumbnails` list of a video-info mapping; every key
may be absent. -/
structure Thumbnail where
  url : Option String := none
  width : Option Nat := none
  height : Option Nat := none
deriving DecidableEq, Repr

/-- The recognised keys of the `video_info` mapping (§3 VideoInfo).
`none` models an absent key; the year-ish provider tags are taken in
their string form, which is what `str(value)` produces in line 58. -/
structure VideoInfo where
  uploader : Option String := none
  description : Option String := none
  upload_date : Option String := none
  album : Option String := none
  album_title : Option String := none
  music_album : Option String := none
  music_album_title : Option String := none
  release_year : Option String := none
  release_date : Option String := none
  original_year : Option String := none
  year : Option String := none
  music_release_year : Option String := none
  music_release_date : Option String := none
  thumbnails : List Thumbnail := []
deriving DecidableEq, Repr

/-- The metadata dictionary built by `extract_metadata_from_title`
(line 36), in field order. -/
structure Metadata where
  artist : String
  song : String
  album : String
  track : String
  year : String
deriving DecidableEq, Repr

/-! ### Album from tags (lines 41-47) -/

/-- One step of the album-tag test: `album_value and
isinstance(album_value, str) and album_value.strip()` (line 45); the
stored value is `album_value.strip()`. -/
def strTruthyTrim (v : Option String) : Option String :=
  match v with
  | some s => if pstrip s = "" then none else some (pstrip s)
  | none => none

/-- First field of a list passing the album-tag test. -/
def firstAlbumHit : List (Option String) → Option String
  | [] => none
  | v :: rest =>
    match strTruthyTrim v with
    | some a => some a
    | none => firstAlbumHit rest

/-- The `album_fields` scan of lines 42-47, in source order. -/
def firstTagAlbum (vi : VideoInfo) : Option String :=
  firstAlbumHit [vi.album, vi.album_title, vi.music_album, vi.music_album_title]

/-! ### Year from tags (lines 49-63): `re.search(r'\b(\d{4})\b', str(value))` -/

/-- Whether `\b(\d{4})\b` matches at the current position: the previous
character (tracked by `prevW`) is not a word character, four digits
follow, and the character after them (if any) is not a word character. -/
def fourDigitHere (prevW : Bool) (c : Char) (rest : List Char) : Bool :=
  !prevW && c.isDigit &&
    (match rest with
     | c2 :: c3 :: c4 :: rest4 =>
       c2.isDigit && c3.isDigit && c4.isDigit &&
         (match rest4 with
          | [] => true
          | c5 :: _ => !isWordChar c5)
     | _ => false)

/-- Leftmost match of `\b(\d{4})\b`; returns the captured digits. -/
def yearScanAux (prevW : Bool) : List Char → Option (List Char)
  | [] => none
  | c :: rest =>
    if fourDigitHere prevW c rest then some (c :: rest.take 3)
    else yearScanAux (isWordChar c) rest

/-- `re.search(r'\b(\d{4})\b', s)` of line 58. -/
def searchYearBW (s : String) : Option String :=
  match yearScanAux false s.data with
  | some l => some (String.mk l)
  | none => none

/-- One step of the year-field loop (lines 55-61): skip falsy values,
search the string form for a bounded four-digit run. -/
def yearOf (v : Option String) : Option String :=
  match v with
  | some s => if s = "" then none else searchYearBW s
  | none => none

/-- First field of a list yielding a year match (the loop breaks only on
a match, so fields without one are skipped). -/
def firstYearHit : List (Option String) → Option String
  | [] => none
  | v :: rest =>
    match yearOf v with
    | some y => some y
    | none => firstYearHit rest

/-- The `year_fields` scan of lines 50-61, in source order. -/
def firstTagYear (vi : VideoInfo) : Option String :=
  firstYearHit [vi.release_year, vi.release_date, vi.original_year,
    vi.year, vi.music_release_year, vi.music_release_date]

/-! ### Description rules (lines 65-91)

`re.search(r'Album\s*•\s*(.+?)\s*•\s*(\d{4})', description)` and the
shorter `Album\s*•\s*(\d{4})`, then the four `album_patterns`. -/

/-- Tail `\s*(\d{4})`: the greedy whitespace run is deterministic
because no whitespace character is a digit. -/
def bulletYearTail2 (u : List Char) : Option (List Char) :=
  match u.dropWhile isSpace with
  | a :: b :: c :: d :: _ =>
    if a.isDigit && b.isDigit && c.isDigit && d.isDigit then some [a, b, c, d]
    else none
  | _ => none

/-- Tail `\s*•\s*(\d{4})`. -/
def bulletSepThenYear (u : List Char) : Option (List Char) :=
  match u.dropWhile isSpace with
  | c :: t => if c = '•' then bulletYearTail2 t else none
  | [] => none

/-- Lazy `(.+?)` before `\s*•\s*(\d{4})`: grow the capture one character
at a time (never across a newline), checking the tail at each size. -/
def lazyG1Year (acc : List Char) : List Char → Option (List Char × List Char)
  | [] => none
  | c :: rest =>
    if c = '\n' then none
    else
      match bulletSepThenYear rest with
      | some y => some (acc ++ [c], y)
      | none => lazyG1Year (acc ++ [c]) rest

/-- Greedy `\s*` before the lazy group: try the longest whitespace
prefix first, backing off one character at a time. -/
def bulletWLoop (u : List Char) : Nat → Option (List Char × List Char)
  | 0 => lazyG1Year [] u
  | w + 1 =>
    match lazyG1Year [] (u.drop (w + 1)) with
    | some r => some r
    | none => bulletWLoop u w

/-- Match `Album\s*•\s*(.+?)\s*•\s*(\d{4})` at the current position. -/
def bulletFullAt (s : List Char) : Option (List Char × List Char) :=
  match dropLit ("Album".data) s with
  | some t =>
    match t.dropWhile isSpace with
    | c :: u => if c = '•' then bulletWLoop u ((u.takeWhile isSpace).length) else none
    | [] => none
  | none => none

/-- Match `Album\s*•\s*(\d{4})` at the current position. -/
def bulletShortAt (s : List Char) : Option (List Char) :=
  match dropLit ("Album".data) s with
  | some t => bulletSepThenYear t
  | none => none

/-- Greedy `\s*` before `(.+?)(?:\n|$)` with MULTILINE: at offset `w`
the lazy capture runs from there to the next newline or the end and
must be non-empty; try larger offsets first. -/
def dotTailW (u : List Char) : Nat → Option (List Char)
  | 0 =>
    match u with
    | c :: v => if c = '\n' then none else some (c :: v.takeWhile (fun x => !(x == '\n')))
    | [] => none
  | w + 1 =>
    match u.drop (w + 1) with
    | c :: v =>
      if c = '\n' then dotTailW u w
      else some (c :: v.takeWhile (fun x => !(x == '\n')))
    | [] => dotTailW u w

/-- Tail `\s*(.+?)(?:\n|$)` (MULTILINE) shared by the first two
`album_patterns`. -/
def dotTail (u : List Char) : Option (List Char) :=
  dotTailW u ((u.takeWhile isSpace).length)

/-- Tail `\s*[:\-]` then `\s*(.+?)(?:\n|$)` of the first album pattern. -/
def p1Tail (t : List Char) : Option (List Char) :=
  match t.dropWhile isSpace with
  | c :: u => if c = ':' ∨ c = '-' then dotTail u else none
  | [] => none

/-- Match `(?:album|from|off)\s*[:\-]\s*(.+?)(?:\n|$)` (IGNORECASE,
MULTILINE) at the current position; the alternatives start with distinct
letters, so at most one can apply. -/
def p1At (s : List Char) : Option (List Char) :=
  match dropLitCI ("album".data) s with
  | some t => p1Tail t
  | none =>
    match dropLitCI ("from".data) s with
    | some t => p1Tail t
    | none =>
      match dropLitCI ("off".data) s with
      | some t => p1Tail t
      | none => none

/-- Match `(?:álbum|album):\s*(.+?)(?:\n|$)` at the current position:
the colon follows the literal directly. -/
def p2At (s : List Char) : Option (List Char) :=
  match dropLitCI ("álbum".data) s with
  | some t =>
    match t with
    | c :: u => if c = ':' then dotTail u else none
    | [] => none
  | none =>
    match dropLitCI ("album".data) s with
    | some t =>
      match t with
      | c :: u => if c = ':' then dotTail u else none
      | [] => none
    | none => none

/-- `\s+` before a literal whose first character is not whitespace:
require one whitespace character, then skip the maximal run. -/
def wsPlus (l : List Char) : Option (List Char) :=
  match l with
  | c :: rest => if isSpace c then some (rest.dropWhile isSpace) else none
  | [] => none

/-- Lazy `(.+?)` up to the next single or double quote (`["\']`). -/
def quoteLazy (acc : List Char) : List Char → Option (List Char)
  | [] => none
  | c :: rest =>
    if c = '\n' then none
    else
      match rest with
      | q :: _ =>
        if q = quoteChar ∨ q = aposChar then some (acc ++ [c])
        else quoteLazy (acc ++ [c]) rest
      | [] => none

/-- Match `LEAD\s+the\s+album\s+["\'](.+?)["\']` (IGNORECASE) at the
current position, for `LEAD` one of `from` / `off`. -/
def p34At (lead : List Char) (s : List Char) : Option (List Char) :=
  match dropLitCI lead s with
  | some t1 =>
    match wsPlus t1 with
    | some t2 =>
      match dropLitCI ("the".data) t2 with
      | some t3 =>
        match wsPlus t3 with
        | some t4 =>
          match dropLitCI ("album".data) t4 with
          | some t5 =>
            match wsPlus t5 with
            | some t6 =>
              match t6 with
              | q :: u =>
                if q = quoteChar ∨ q = aposChar then quoteLazy [] u else none
              | [] => none
            | none => none
          | none => none
        | none => none
      | none => none
    | none => none
  | none => none

/-- The four `album_patterns` searches of lines 77-84, in source order. -/
def albumPatternMatches (desc : List Char) : List (Option (List Char)) :=
  [searchAny p1At desc, searchAny p2At desc,
   searchAny (p34At ("from".data)) desc, searchAny (p34At ("off".data)) desc]

/-- The loop of lines 83-91: the first pattern whose capture, stripped
and edge-punctuation-stripped, has length strictly between 2 and 100
stops the loop; the album is only written if still empty. -/
def scanPatterns (album : String) : List (Option (List Char)) → String
  | [] => album
  | none :: rest => scanPatterns album rest
  | some g :: rest =>
    let pa := edgeStrip (stripChars g)
    if 2 < pa.length ∧ pa.length < 100 then
      if album = "" then String.mk pa else album
    else scanPatterns album rest

/-- The description block of lines 65-91: run only when album or year is
still missing; a full `Album • name • year` match fills whichever of the
two is empty, otherwise the short year form and the four album patterns
are tried. -/
def descUpdate (album year : String) (desc : List Char) : String × String :=
  if album = "" ∨ year = "" then
    match searchAny bulletFullAt desc with
    | some (g1, y) =>
      ((if album = "" then String.mk (stripChars g1) else album),
       (if year = "" then String.mk y else year))
    | none =>
      let year1 :=
        match searchAny bulletShortAt desc with
        | some y => if year = "" then String.mk y else year
        | none => year
      (scanPatterns album (albumPatternMatches desc), year1)
  else (album, year)

/-! ### Artist and song from the title (lines 99-115)

The four patterns `^(.+?)\s*-\s*(.+)$`, `^(.+?)\s*:\s*(.+)$`,
`^(.+?)\s+by\s+(.+)$`, `^(.+?)\s*\|\s*(.+)$` are tried with `re.match`
and `re.IGNORECASE`; only the literal `by` is affected by the flag. -/

/-- Without MULTILINE, `$` also matches before one final newline, and
`.` never matches a newline; so matching `^...(.+)$` against a title is
matching with `$` as end-of-string against the title with one trailing
newline removed. -/
def titleBody (l : List Char) : List Char :=
  match l.reverse with
  | '\n' :: t => t.reverse
  | _ => l

/-- Tail `\s*(.+)$` on the body: the greedy whitespace run backs off
only when everything after it is whitespace, in which case the capture
is the final character; the capture may not contain a newline. -/
def tailGroup2Star (t : List Char) : Option (List Char) :=
  match t.dropWhile isSpace with
  | c :: v => if (c :: v).contains '\n' then none else some (c :: v)
  | [] =>
    match t.reverse with
    | c :: _ => if c = '\n' then none else some [c]
    | [] => none

/-- Tail `\s+(.+)$` on the body: one whitespace character, then as for
`\s*(.+)$`. -/
def tailGroup2Plus (t : List Char) : Option (List Char) :=
  match t with
  | c :: v => if isSpace c then tailGroup2Star v else none
  | [] => none

/-- Match `^(.+?)\s*SEP\s*(.+)$` on the body: the lazy first capture
grows one character at a time (never across a newline); after it the
greedy whitespace run is deterministic because `SEP` is not whitespace. -/
def sepSplitAux (sep : Char) (acc : List Char) : List Char → Option (List Char × List Char)
  | [] => none
  | c :: rest =>
    if c = '\n' then none
    else
      match rest.dropWhile isSpace with
      | c2 :: t =>
        if c2 = sep then
          match tailGroup2Star t with
          | some g2 => some (acc ++ [c], g2)
          | none => sepSplitAux sep (acc ++ [c]) rest
        else sepSplitAux sep (acc ++ [c]) rest
      | [] => sepSplitAux sep (acc ++ [c]) rest

/-- Match `^(.+?)\s+by\s+(.+)$` (IGNORECASE) on the body. -/
def bySplitAux (acc : List Char) : List Char → Option (List Char × List Char)
  | [] => none
  | c :: rest =>
    if c = '\n' then none
    else
      match rest with
      | r1 :: _ =>
        if isSpace r1 then
          match rest.dropWhile isSpace with
          | b :: y :: t =>
            if (b = 'b' ∨ b = 'B') ∧ (y = 'y' ∨ y = 'Y') then
              match tailGroup2Plus t with
              | some g2 => some (acc ++ [c], g2)
              | none => bySplitAux (acc ++ [c]) rest
            else bySplitAux (acc ++ [c]) rest
          | _ => bySplitAux (acc ++ [c]) rest
        else bySplitAux (acc ++ [c]) rest
      | [] => none

/-- The pattern loop of lines 100-115: first match wins; the Boolean
records whether the matching pattern text contains the token `by`
(true exactly for the third pattern), which swaps the capture roles. -/
def titleSplit (title : String) : Option (List Char × List Char × Bool) :=
  let b := titleBody title.data
  match sepSplitAux '-' [] b with
  | some (g1, g2) => some (g1, g2, false)
  | none =>
    match sepSplitAux ':' [] b with
    | some (g1, g2) => some (g1, g2, false)
    | none =>
      match bySplitAux [] b with
      | some (g1, g2) => some (g1, g2, true)
      | none =>
        match sepSplitAux '|' [] b with
        | some (g1, g2) => some (g1, g2, false)
        | none => none

/-- The (artist, song) pair written by lines 106-115, before the
fallbacks; `("", "")` when no pattern matched. -/
def titleArtistSong (title : String) : String × String :=
  match titleSplit title with
  | some (g1, g2, swapped) =>
    if swapped then (String.mk (stripChars g2), String.mk (stripChars g1))
    else (String.mk (stripChars g1), String.mk (stripChars g2))
  | none => ("", "")

/-! ### The extractor -/

/-- Body of `extract_metadata_from_title` for a present (dict)
`video_info`.  Empty-dict truthiness makes no behavioural difference for
a dict argument: lines 38-39 and 94-97 read absent keys as the same
defaults either way, so the `if video_info` guards are dropped here. -/
def extractCore (title : String) (vi : VideoInfo) : Metadata :=
  let uploader := vi.uploader.getD ""
  let description := vi.description.getD ""
  let album0 := (firstTagAlbum vi).getD ""
  let year0 := (firstTagYear vi).getD ""
  let ay := descUpdate album0 year0 description.data
  let ud := vi.upload_date.getD ""
  let year2 := if ay.2 = "" ∧ ud ≠ "" ∧ 4 ≤ ud.length then String.mk (ud.data.take 4) else ay.2
  let asg := titleArtistSong title
  let song1 := if asg.2 = "" then title else asg.2
  let artist1 :=
    if asg.1 = "" then (if uploader ≠ "" then uploader else "Unknown Artist")
    else asg.1
  { artist := artist1, song := song1, album := ay.1, track := "", year := year2 }

/-- `extract_metadata_from_title(title, video_info)` (lines 34-122).
The `None` default of the signature is guarded in lines 38-39 and 94,
but line 44 evaluates `video_info.get(field)` unconditionally, so a
`None` argument raises an `AttributeError` there; a dict argument never
raises. -/
def extract_metadata_from_title (title : String) (video_info : Option VideoInfo) :
    Except String Metadata :=
  match video_info with
  | none => Except.error "AttributeError: None has no attribute get"
  | some vi => Except.ok (extractCore title vi)

/-! ### Track sequencer (lines 152-159 and 267-272) -/

/-- The album key `f"{artist}_{album}"` of lines 153 and 267. -/
def albumKey (artist album : String) : String :=
  artist ++ "_" ++ album

/-- Dict lookup on the `track_counters` mapping. -/
def lookupCounter : List (String × Nat) → String → Option Nat
  | [], _ => none
  | (k, v) :: rest, key => if k = key then some v else lookupCounter rest key

/-- Dict store on the `track_counters` mapping. -/
def setCounter : List (String × Nat) → String → Nat → List (String × Nat)
  | [], key, v => [(key, v)]
  | (k, w) :: rest, key, v =>
    if k = key then (key, v) :: rest else (k, w) :: setCounter rest key v

/-- Python `str` of a natural number: decimal digits, most significant
first.  The fuel argument bounds the recursion; `n + 1` always
suffices. -/
def natDigitsAux : Nat → Nat → List Char
  | 0, _ => []
  | fuel + 1, n =>
    if n < 10 then [Nat.digitChar n]
    else natDigitsAux fuel (n / 10) ++ [Nat.digitChar (n % 10)]

/-- Python `str(n)` for a natural number. -/
def natRepr (n : Nat) : String :=
  String.mk (natDigitsAux (n + 1) n)

/-- The auto-increment of lines 152-159 / 267-272: first request for the
key stores and returns 1, later requests increment; the returned string
is `str(counters[key])`. -/
def next_track (counters : List (String × Nat)) (artist album : String) :
    String × List (String × Nat) :=
  let key := albumKey artist album
  let n :=
    match lookupCounter counters key with
    | none => 1
    | some v => v + 1
  (natRepr n, setCounter counters key n)

/-! ### File organisation (lines 30-32, 205-210, 276-283) -/

/-- The character class of `re.sub(r'[<>:"/\\|?*]', '', filename)`. -/
def isInvalidFileChar (c : Char) : Bool :=
  c == '<' || c == '>' || c == ':' || c == quoteChar || c == '/' ||
    c == '\\' || c == '|' || c == '?' || c == '*'

/-- `sanitize_filename` (lines 30-32): remove the forbidden characters,
then strip surrounding whitespace. -/
def sanitize_filename (s : String) : String :=
  String.mk (stripChars (s.data.filter (fun c => !isInvalidFileChar c)))

/-- Python `str.zfill(width)`: pad with zeros on the left up to `width`,
keeping a leading sign in place; a string at least `width` long is
unchanged. -/
def zfill (s : String) (width : Nat) : String :=
  match s.data with
  | [] => String.mk (List.replicate width '0')
  | c :: rest =>
    if c = '+' ∨ c = '-' then
      String.mk (c :: (List.replicate (width - 1 - rest.length) '0' ++ rest))
    else String.mk (List.replicate (width - (c :: rest).length) '0' ++ (c :: rest))

/-- The target path of the downloaded mp3 (lines 276-283 together with
`create_folder_structure`, lines 205-210):
`base/Artist/Album/NN. Song.mp3` with the track number zero-filled to
width 2.  Path joins are rendered with `/`.  The `'1'` default of
`metadata.get('track', '1')` applies only when the key is absent, which
the pipeline never produces, so the present track string is used. -/
def buildTargetPath (base : String) (md : Metadata) : String :=
  base ++ "/" ++ sanitize_filename md.artist ++ "/" ++ sanitize_filename md.album
    ++ "/" ++ zfill md.track 2 ++ ". " ++ sanitize_filename md.song ++ ".mp3"

/-! ### Cover-art selection (lines 171-203) -/

/-- `width * height` with the `.get(key, 0)` defaults of lines 183-184. -/
def thumbRes (t : Thumbnail) : Nat :=
  t.width.getD 0 * t.height.getD 0

/-- The selection loop of lines 179-189: keep the first thumbnail whose
resolution strictly exceeds the running maximum, which starts at 0. -/
def bestThumbAux (best : Option Thumbnail) (maxres : Nat) :
    List Thumbnail → Option Thumbnail
  | [] => best
  | t :: rest =>
    if maxres < thumbRes t then bestThumbAux (some t) (thumbRes t) rest
    else bestThumbAux best maxres rest

/-- Maximum resolution over a thumbnail list (0 when empty). -/
def maxRes (l : List Thumbnail) : Nat :=
  l.foldr (fun t m => max (thumbRes t) m) 0

/-- First thumbnail of a given resolution. -/
def firstWithRes (r : Nat) : List Thumbnail → Option Thumbnail
  | [] => none
  | t :: rest => if thumbRes t = r then some t else firstWithRes r rest

/-- The stable arg-max the specification describes: the first thumbnail
attaining the maximal `width * height`. -/
def firstMaxThumb (l : List Thumbnail) : Option Thumbnail :=
  firstWithRes (maxRes l) l

/-- The selection part of `download_cover_art` (lines 174-196): the URL
that would be fetched, or `none` when the function returns `None`
without fetching (empty list, no winning thumbnail, or a winner without
a truthy `url`).  The network fetch itself is outside the embedding. -/
def download_cover_art_url (vi : VideoInfo) : Option String :=
  if vi.thumbnails = [] then none
  else
    match bestThumbAux none 0 vi.thumbnails with
    | none => none
    | some b =>
      match b.url with
      | some u => if u = "" then none else some u
      | none => none

/-! ### Rate limiter (lines 389-405) -/

/-- The `RateLimiter` state: configuration plus the window of recent
call timestamps.  Timestamps are modelled as integers; the lock only
serialises access and has no algorithmic content. -/
structure RateLimiter where
  max_calls : Int
  period : Int
  calls : List Int
deriving DecidableEq, Repr

/-- `RateLimiter.__init__` (lines 390-394): store the configuration
unchecked and start with an empty window. -/
def mkRateLimiter (max_calls period : Int) : RateLimiter :=
  { max_calls := max_calls, period := period, calls := [] }

/-- `RateLimiter.acquire` (lines 396-405) as a pure step: `now` is the
`time.time()` read on entry and `now2` the fresh read appended at the
end.  Returns the sleep duration requested (if any) and the new state;
evaluating `self.calls[0]` on an empty window is an `IndexError`, which
happens exactly when `max_calls <= 0`. -/
def RateLimiter.acquire (rl : RateLimiter) (now now2 : Int) :
    Except String (Option Int × RateLimiter) :=
  let calls := rl.calls.filter (fun t => now - rl.period < t)
  if rl.max_calls ≤ (calls.length : Int) then
    match calls with
    | [] => Except.error "IndexError: list index out of range"
    | t0 :: _ =>
      let sleep := rl.period - (now - t0)
      Except.ok ((if 0 < sleep then some sleep else none),
        { rl with calls := calls ++ [now2] })
  else Except.ok (none, { rl with calls := calls ++ [now2] })

/-! ## Helper lemmas -/

/-- The song field is the pattern capture, with the full title as
fallback (lines 110-118). -/
theorem extractCore_song_eq (title : String) (vi : VideoInfo) :
    (extractCore title vi).song =
      (if (titleArtistSong title).2 = "" then title else (titleArtistSong title).2) := rfl

/-- The artist field is the pattern capture, with `uploader or "Unknown
Artist"` as fallback (lines 111-120). -/
theorem extractCore_artist_eq (title : String) (vi : VideoInfo) :
    (extractCore title vi).artist =
      (if (titleArtistSong title).1 = "" then
        (if vi.uploader.getD "" ≠ "" then vi.uploader.getD "" else "Unknown Artist")
       else (titleArtistSong title).1) := rfl

/-- The album field is the tag scan result threaded through the
description block. -/
theorem extractCore_album_eq (title : String) (vi : VideoInfo) :
    (extractCore title vi).album =
      (descUpdate ((firstTagAlbum vi).getD "") ((firstTagYear vi).getD "")
        ((vi.description.getD "").data)).1 := rfl

/-- The year field is the tag scan result threaded through the
description block and the upload-date fallback. -/
theorem extractCore_year_eq (title : String) (vi : VideoInfo) :
    (extractCore title vi).year =
      (if (descUpdate ((firstTagAlbum vi).getD "") ((firstTagYear vi).getD "")
            ((vi.description.getD "").data)).2 = "" ∧
          vi.upload_date.getD "" ≠ "" ∧ 4 ≤ (vi.upload_date.getD "").length
       then String.mk ((vi.upload_date.getD "").data.take 4)
       else (descUpdate ((firstTagAlbum vi).getD "") ((firstTagYear vi).getD "")
            ((vi.description.getD "").data)).2) := rfl

/-- The album-pattern loop never changes a non-empty album. -/
theorem scanPatterns_preserve (ps : List (Option (List Char))) (album : String)
    (h : album ≠ "") : scanPatterns album ps = album := by
  induction ps with
  | nil => rfl
  | cons p rest ih =>
    cases p with
    | none => simpa [scanPatterns] using ih
    | some g =>
      simp only [scanPatterns]
      split
      · simp [h]
      · exact ih

/-- The description block never changes a non-empty album. -/
theorem descUpdate_fst (a y : String) (d : List Char) (h : a ≠ "") :
    (descUpdate a y d).1 = a := by
  unfold descUpdate
  split
  · cases hs : searchAny bulletFullAt d with
    | some r =>
      obtain ⟨g1, yy⟩ := r
      simp [hs, h]
    | none => simp [hs, scanPatterns_preserve _ _ h]
  · rfl

/-- The description block never changes a non-empty year. -/
theorem descUpdate_snd (a y : String) (d : List Char) (h : y ≠ "") :
    (descUpdate a y d).2 = y := by
  unfold descUpdate
  split
  · cases hs : searchAny bulletFullAt d with
    | some r =>
      obtain ⟨g1, yy⟩ := r
      simp [hs, h]
    | none =>
      cases hs2 : searchAny bulletShortAt d with
      | some yy => simp [hs, hs2, h]
      | none => simp [hs, hs2]
  · rfl

/-- A successful `\b(\d{4})\b` scan captures a non-empty list. -/
theorem yearScanAux_ne_nil (l : List Char) : ∀ (p : Bool) (cs : List Char),
    yearScanAux p l = some cs → cs ≠ [] := by
  induction l with
  | nil => intro p cs h; simp [yearScanAux] at h
  | cons c rest ih =>
    intro p cs h
    simp only [yearScanAux] at h
    split at h
    · cases h; simp
    · exact ih _ _ h

/-- A successful year search returns a non-empty string. -/
theorem searchYearBW_ne (s : String) (y : String)
    (h : searchYearBW s = some y) : y ≠ "" := by
  unfold searchYearBW at h
  cases hs : yearScanAux false s.data with
  | none => rw [hs] at h; simp at h
  | some l =>
    rw [hs] at h
    injection h with h2
    subst h2
    have hl := yearScanAux_ne_nil s.data false l hs
    intro hc
    apply hl
    have : l = ("" : String).data := congrArg String.data hc
    simpa using this

/-- The year-field scan returns a non-empty string when it succeeds. -/
theorem firstYearHit_ne (l : List (Option String)) (y : String)
    (h : firstYearHit l = some y) : y ≠ "" := by
  induction l with
  | nil => simp [firstYearHit] at h
  | cons v rest ih =>
    simp only [firstYearHit] at h
    cases hv : yearOf v with
    | some yy =>
      rw [hv] at h
      injection h with h2
      subst h2
      unfold yearOf at hv
      cases v with
      | none => simp at hv
      | some s =>
        simp only at hv
        split at hv
        · simp at hv
        · exact searchYearBW_ne s _ hv
    | none => rw [hv] at h; exact ih h

/-- The album-tag test returns a non-empty string when it succeeds. -/
theorem strTruthyTrim_ne (v : Option String) (a : String)
    (h : strTruthyTrim v = some a) : a ≠ "" := by
  unfold strTruthyTrim at h
  cases v with
  | none => simp at h
  | some s =>
    simp only at h
    split at h
    · simp at h
    · rename_i hne
      injection h with h2
      subst h2
      exact hne

/-- The album-field scan returns a non-empty string when it succeeds. -/
theorem firstAlbumHit_ne (l : List (Option String)) (a : String)
    (h : firstAlbumHit l = some a) : a ≠ "" := by
  induction l with
  | nil => simp [firstAlbumHit] at h
  | cons v rest ih =>
    simp only [firstAlbumHit] at h
    cases hv : strTruthyTrim v with
    | some aa =>
      rw [hv] at h
      injection h with h2
      subst h2
      exact strTruthyTrim_ne v _ hv
    | none => rw [hv] at h; exact ih h

/-! ## Claim theorems -/

/-- C1: the claim says extraction never raises, for a `None` video_info
included, every absent field degrading to a fallback.  The code violates
this: lines 38-39 guard `video_info` against `None`, but line 44 calls
`video_info.get(field)` unconditionally, so `None` raises an
`AttributeError` in the album-fields loop; a dict argument (any keys
missing) indeed never raises and is mapped to `extractCore`. -/
theorem extract_metadata_none_raises :
    extract_metadata_from_title "Some Title" none =
      Except.error "AttributeError: None has no attribute get" ∧
    (∀ (title : String) (vi : VideoInfo),
      extract_metadata_from_title title (some vi) = Except.ok (extractCore title vi)) :=
  ⟨rfl, fun _ _ => rfl⟩

/-- C2 counterexample: with an empty title and an empty info mapping no
title pattern matches, so the song falls back to the full original
title, which is empty — the returned record has an empty song field,
refuting the claim that song is non-empty for every title. -/
theorem empty_title_gives_empty_song :
    extract_metadata_from_title "" (some {}) =
      Except.ok { artist := "Unknown Artist", song := "", album := "", track := "", year := "" } := rfl

/-- C2 amended: for every title and every present video_info, the artist
field is never empty (pattern capture, else the uploader if non-empty,
else the literal `Unknown Artist`), and the song field is non-empty
whenever the original title is non-empty (pattern capture, else the full
original title). -/
theorem song_artist_nonempty (title : String) (vi : VideoInfo) :
    (extractCore title vi).artist ≠ "" ∧
    (title ≠ "" → (extractCore title vi).song ≠ "") := by
  constructor
  · rw [extractCore_artist_eq]
    split
    · split
      · assumption
      · decide
    · assumption
  · intro ht
    rw [extractCore_song_eq]
    split
    · exact ht
    · assumption

/-- C2 witness: a concrete non-empty title yields non-empty song and
artist. -/
theorem song_artist_nonempty_witness :
    (extractCore "Hello" {}).song ≠ "" ∧ (extractCore "Hello" {}).artist ≠ "" :=
  ⟨(song_artist_nonempty "Hello" {}).2 (by decide), (song_artist_nonempty "Hello" {}).1⟩

/-- C3 counterexample: the claim says a 4-digit run is found anywhere in
the string form, so that `release_date = "20231015"` yields year
`"2023"`.  The code searches `\b(\d{4})\b` with word boundaries, which
an 8-digit run fails, so the extracted year is empty for this input. -/
theorem year_eight_digit_no_match :
    searchYearBW "20231015" = none ∧
    (extractCore "T" { release_date := some "20231015" }).year = "" :=
  ⟨by decide, by decide⟩

/-- C3 amended: the year-field scan of `release_year, release_date,
original_year, year, music_release_year, music_release_date` (in that
order, skipping fields whose string form has no match) supplies the
extracted year, where a match is a 4-digit run bounded by word
boundaries — not adjacent to any letter, digit or underscore — so an
8-digit value such as `20231015` yields no match and the scan moves
on. -/
theorem year_tag_scan (title : String) (vi : VideoInfo) (y : String)
    (h : firstTagYear vi = some y) :
    (extractCore title vi).year = y := by
  have hy : y ≠ "" := firstYearHit_ne _ _ h
  rw [extractCore_year_eq, h]
  have h2 := descUpdate_snd ((firstTagAlbum vi).getD "") ((some y).getD "")
    ((vi.description.getD "").data) hy
  rw [h2]
  simp [hy]

/-- C3 witness: `release_date = "20231015"` yields no match and the scan
moves on to the `year` field, whose standalone `1999` supplies the
year. -/
theorem year_tag_scan_witness :
    (extractCore "T" { release_date := some "20231015", year := some "1999" }).year = "1999" :=
  year_tag_scan "T" _ "1999" (by decide)

/-- C5: whenever any field of the precedence list `album, album_title,
music_album, music_album_title` holds a non-empty, non-whitespace-only
string, the extracted album is the trimmed value of the first such
field, whatever the description holds: the description block only ever
writes an album that is still empty. -/
theorem album_tag_precedence (title : String) (vi : VideoInfo) (a : String)
    (h : firstTagAlbum vi = some a) :
    (extractCore title vi).album = a := by
  have ha : a ≠ "" := firstAlbumHit_ne _ _ h
  rw [extractCore_album_eq, h]
  exact descUpdate_fst a _ _ ha

/-- C5 witness: `album` is absent, `album_title` holds a padded name,
and the description carries a conflicting `Album • ... • ...` marker;
the trimmed tag value wins. -/
theorem album_tag_precedence_witness :
    (extractCore "T"
      { album_title := some "  Great Album  ",
        description := some "Album • Other • 1999" }).album = "Great Album" :=
  album_tag_precedence "T" _ "Great Album" (by decide)

/-- C6: title parsing tries the four patterns in source order, the first
match wins, and the capture roles are swapped exactly when the matched
pattern contains the token `by`.  First part: when the dash pattern
matches (it is tried first), the first capture is the artist and the
second the song.  Second part: when the dash and colon patterns fail and
the `by` pattern matches, the first capture is the song and the second
the artist (the swapped roles). -/
theorem title_pattern_order_and_by_swap (title : String) (vi : VideoInfo)
    (g1 g2 : List Char) :
    (sepSplitAux '-' [] (titleBody title.data) = some (g1, g2) →
      String.mk (stripChars g1) ≠ "" → String.mk (stripChars g2) ≠ "" →
      (extractCore title vi).artist = String.mk (stripChars g1) ∧
        (extractCore title vi).song = String.mk (stripChars g2)) ∧
    (sepSplitAux '-' [] (titleBody title.data) = none →
      sepSplitAux ':' [] (titleBody title.data) = none →
      bySplitAux [] (titleBody title.data) = some (g1, g2) →
      String.mk (stripChars g1) ≠ "" → String.mk (stripChars g2) ≠ "" →
      (extractCore title vi).song = String.mk (stripChars g1) ∧
        (extractCore title vi).artist = String.mk (stripChars g2)) := by
  constructor
  · intro h1 hg1 hg2
    have hts : titleSplit title = some (g1, g2, false) := by
      simp only [titleSplit]
      rw [h1]
    have hta : titleArtistSong title = (String.mk (stripChars g1), String.mk (stripChars g2)) := by
      simp only [titleArtistSong]
      rw [hts]
      rfl
    rw [extractCore_artist_eq, extractCore_song_eq, hta]
    simp [hg1, hg2]
  · intro h1 h2 h3 hg1 hg2
    have hts : titleSplit title = some (g1, g2, true) := by
      simp only [titleSplit]
      rw [h1, h2, h3]
    have hta : titleArtistSong title = (String.mk (stripChars g2), String.mk (stripChars g1)) := by
      simp only [titleArtistSong]
      rw [hts]
      rfl
    rw [extractCore_artist_eq, extractCore_song_eq, hta]
    simp [hg1, hg2]

/-- C6 witness: `Artist One - Song Two` splits unswapped at the dash;
`Song Title by Artist Name` reaches the third pattern and splits with
the roles swapped. -/
theorem title_pattern_order_and_by_swap_witness :
    ((extractCore "Artist One - Song Two" {}).artist = "Artist One" ∧
      (extractCore "Artist One - Song Two" {}).song = "Song Two") ∧
    ((extractCore "Song Title by Artist Name" {}).song = "Song Title" ∧
      (extractCore "Song Title by Artist Name" {}).artist = "Artist Name") := by
  constructor
  · have h := (title_pattern_order_and_by_swap "Artist One - Song Two" {}
      ("Artist One".data) ("Song Two".data)).1 (by decide) (by decide) (by decide)
    exact ⟨h.1.trans (by decide), h.2.trans (by decide)⟩
  · have h := (title_pattern_order_and_by_swap "Song Title by Artist Name" {}
      ("Song Title".data) ("Artist Name".data)).2
      (by decide) (by decide) (by decide) (by decide) (by decide)
    exact ⟨h.1.trans (by decide), h.2.trans (by decide)⟩

/-- Looking up the key just stored finds the stored value. -/
theorem lookupCounter_setCounter_self (cs : List (String × Nat)) (k : String) (v : Nat) :
    lookupCounter (setCounter cs k v) k = some v := by
  induction cs with
  | nil => simp [setCounter, lookupCounter]
  | cons p rest ih =>
    obtain ⟨kk, w⟩ := p
    by_cases h : kk = k
    · simp [setCounter, h, lookupCounter]
    · simp [setCounter, h, lookupCounter, ih]

/-- Storing under one key leaves every other key unchanged. -/
theorem lookupCounter_setCounter_other (cs : List (String × Nat)) (k k2 : String) (v : Nat)
    (h : k2 ≠ k) : lookupCounter (setCounter cs k v) k2 = lookupCounter cs k2 := by
  have h2 : ¬(k = k2) := fun hc => h (Eq.symm hc)
  induction cs with
  | nil => simp [setCounter, lookupCounter, h2]
  | cons p rest ih =>
    obtain ⟨kk, w⟩ := p
    by_cases hk : kk = k
    · subst hk
      simp [setCounter, lookupCounter, h2]
    · by_cases hk2 : kk = k2
      · simp [setCounter, lookupCounter, hk, hk2, h]
      · simp [setCounter, lookupCounter, hk, hk2, ih]

/-- C7: from any counter state, a request for `(artist, album)` returns
the successor of the stored value for the key (a fresh key reads as 0,
so the first request returns `"1"`), stores that successor back, and
leaves every other key untouched — so three sequential requests for one
key yield `"1"`, `"2"`, `"3"`, a later request for a different key
yields `"1"`, and the counter never decreases. -/
theorem next_track_successor (cs : List (String × Nat)) (artist album : String) :
    (next_track cs artist album).1 =
      natRepr ((lookupCounter cs (albumKey artist album)).getD 0 + 1) ∧
    lookupCounter (next_track cs artist album).2 (albumKey artist album) =
      some ((lookupCounter cs (albumKey artist album)).getD 0 + 1) ∧
    (∀ k, k ≠ albumKey artist album →
      lookupCounter (next_track cs artist album).2 k = lookupCounter cs k) := by
  simp only [next_track]
  cases h : lookupCounter cs (albumKey artist album) with
  | none =>
    refine ⟨by simp, ?_, ?_⟩
    · simpa using lookupCounter_setCounter_self cs (albumKey artist album) 1
    · intro k hk
      simpa using lookupCounter_setCounter_other cs (albumKey artist album) k 1 hk
  | some v =>
    refine ⟨by simp, ?_, ?_⟩
    · simpa using lookupCounter_setCounter_self cs (albumKey artist album) (v + 1)
    · intro k hk
      simpa using lookupCounter_setCounter_other cs (albumKey artist album) k (v + 1) hk

/-- C7 witness: a fresh state returns `"1"`; bumping key `A_B` does not
touch the stored counter of another key. -/
theorem next_track_successor_witness :
    (next_track [] "A" "B").1 = "1" ∧
    lookupCounter (next_track [("A_B", 2)] "A" "C").2 "A_B" = some 2 := by
  constructor
  · exact ((next_track_successor [] "A" "B").1).trans (by decide)
  · exact (((next_track_successor [("A_B", 2)] "A" "C").2.2 "A_B" (by decide)).trans (by decide))

/-- C10: the album key joins artist and album with a single underscore,
so the distinct pairs `("A_B", "C")` and `("A", "B_C")` share the key
`A_B_C`; after a request for the first pair, a request for the second
continues the same counter and returns `"2"`. -/
theorem album_key_not_injective :
    albumKey "A_B" "C" = albumKey "A" "B_C" ∧
    ((("A_B" : String), ("C" : String)) ≠ (("A" : String), ("B_C" : String))) ∧
    (next_track (next_track [] "A_B" "C").2 "A" "B_C").1 = "2" :=
  ⟨by decide, by decide, by decide⟩

/-- Any fuel suffices for one digit. -/
theorem natDigitsAux_length_pos (fuel n : Nat) (h : 1 ≤ fuel) :
    1 ≤ (natDigitsAux fuel n).length := by
  match fuel, h with
  | f + 1, _ =>
    simp only [natDigitsAux]
    split
    · simp
    · simp

/-- Numbers of at least 10 print with at least two digits. -/
theorem natDigitsAux_length_two (fuel n : Nat) (hf : 2 ≤ fuel) (hn : 10 ≤ n) :
    2 ≤ (natDigitsAux fuel n).length := by
  match fuel, hf with
  | f + 1, _ =>
    simp only [natDigitsAux]
    rw [if_neg (by omega)]
    have h1 := natDigitsAux_length_pos f (n / 10) (by omega)
    simp only [List.length_append, List.length_cons, List.length_nil]
    omega

/-- Numbers of at least 100 print with at least three digits. -/
theorem natDigitsAux_length_three (fuel n : Nat) (hf : 3 ≤ fuel) (hn : 100 ≤ n) :
    3 ≤ (natDigitsAux fuel n).length := by
  match fuel, hf with
  | f + 1, _ =>
    simp only [natDigitsAux]
    rw [if_neg (by omega)]
    have hdiv : 10 ≤ n / 10 := by
      rw [Nat.le_div_iff_mul_le (by omega)]
      omega
    have h1 := natDigitsAux_length_two f (n / 10) (by omega) hdiv
    simp only [List.length_append, List.length_cons, List.length_nil]
    omega

/-- The decimal form of a number of at least 100 has at least three
characters. -/
theorem natRepr_length_three (n : Nat) (h : 100 ≤ n) : 3 ≤ (natRepr n).length := by
  unfold natRepr
  have h1 := natDigitsAux_length_three (n + 1) n (by omega) h
  simpa [String.length] using h1

/-- `zfill` to width 2 leaves a string of two or more characters
unchanged. -/
theorem zfill_of_two_le (s : String) (h : 2 ≤ s.length) : zfill s 2 = s := by
  obtain ⟨l⟩ := s
  simp only [String.length] at h
  cases l with
  | nil => simp at h
  | cons c rest =>
    simp only [zfill]
    split
    · have h0 : 2 - 1 - rest.length = 0 := by
        simp only [List.length_cons] at h
        omega
      rw [h0]
      simp
    · have h0 : 2 - (c :: rest).length = 0 := by
        simp only [List.length_cons] at h ⊢
        omega
      rw [h0]
      simp

/-- C8: the target path is `base/Artist/Album/NN. Song.mp3` where `NN`
is the track string zero-filled to width 2; a track value of 100 or more
is longer than the padding width and is kept in full, never truncated,
and the concrete example renders as
`D/Sia/1000 Forms of Fear/03. Chandelier.mp3`. -/
theorem track_number_path_padding :
    (∀ (base artist album song year : String) (n : Nat), 100 ≤ n →
      buildTargetPath base
          { artist := artist, song := song, album := album, track := natRepr n, year := year } =
        base ++ "/" ++ sanitize_filename artist ++ "/" ++ sanitize_filename album ++ "/"
          ++ natRepr n ++ ". " ++ sanitize_filename song ++ ".mp3") ∧
    buildTargetPath "D"
        { artist := "Sia", song := "Chandelier", album := "1000 Forms of Fear",
          track := "3", year := "" } =
      "D/Sia/1000 Forms of Fear/03. Chandelier.mp3" := by
  constructor
  · intro base artist album song year n hn
    unfold buildTargetPath
    rw [zfill_of_two_le _ (le_trans (by omega) (natRepr_length_three n hn))]
  · decide

/-- C8 witness: track 103 appears in full in the path. -/
theorem track_number_path_padding_witness :
    buildTargetPath "D" { artist := "R", song := "S", album := "A", track := natRepr 103, year := "" } =
      "D/R/A/103. S.mp3" := by
  have h := track_number_path_padding.1 "D" "R" "A" "S" "" 103 (by omega)
  exact h.trans (by decide)

/-- The selection loop is the stable arg-max over the part of the list
beating the running maximum: it returns the first element attaining the
maximal resolution when that maximum beats the accumulator, else the
accumulator. -/
theorem bestThumbAux_eq (l : List Thumbnail) : ∀ (best : Option Thumbnail) (m : Nat),
    bestThumbAux best m l =
      (if m < maxRes l then firstWithRes (maxRes l) l else best) := by
  induction l with
  | nil =>
    intro best m
    simp [bestThumbAux, maxRes]
  | cons t rest ih =>
    intro best m
    have hmax : maxRes (t :: rest) = max (thumbRes t) (maxRes rest) := rfl
    simp only [bestThumbAux]
    by_cases h : m < thumbRes t
    · rw [if_pos h, ih]
      by_cases h2 : thumbRes t < maxRes rest
      · rw [if_pos h2, hmax]
        rw [if_pos (by omega)]
        simp only [firstWithRes]
        rw [if_neg (by omega), max_eq_right (le_of_lt h2)]
      · rw [if_neg h2, hmax]
        rw [if_pos (by omega)]
        simp only [firstWithRes]
        rw [max_eq_left (by omega), if_pos rfl]
    · rw [if_neg h, ih, hmax]
      by_cases h3 : m < maxRes rest
      · rw [if_pos h3, if_pos (by omega)]
        simp only [firstWithRes]
        rw [max_eq_right (by omega), if_neg (by omega)]
      · rw [if_neg h3, if_neg (by omega)]

/-- C9 counterexample: a single thumbnail of zero area carrying a URL is
the stable arg-max the claim describes, yet the selection returns
nothing, because the loop only keeps entries whose resolution strictly
exceeds the initial maximum 0. -/
theorem zero_resolution_thumbnail_skipped :
    firstMaxThumb [{ url := some "u", width := some 0, height := some 0 }] =
      some { url := some "u", width := some 0, height := some 0 } ∧
    download_cover_art_url
        { thumbnails := [{ url := some "u", width := some 0, height := some 0 }] } = none :=
  ⟨by decide, by decide⟩

/-- C9 amended: the selection is the stable arg-max (first entry of
maximal `width * height`, ties keeping the first seen) restricted to a
positive maximum — when the list is empty, or every entry has zero or
missing resolution, no entry wins — and the fetched URL is the winning
entry's `url` when that is present and non-empty, with `none` (and no
error) in every other case. -/
theorem cover_art_selection (vi : VideoInfo) :
    bestThumbAux none 0 vi.thumbnails =
      (if maxRes vi.thumbnails = 0 then none else firstMaxThumb vi.thumbnails) ∧
    download_cover_art_url vi =
      ((bestThumbAux none 0 vi.thumbnails).bind (fun b =>
        match b.url with
        | some u => if u = "" then none else some u
        | none => none)) := by
  constructor
  · rw [bestThumbAux_eq]
    by_cases h : maxRes vi.thumbnails = 0
    · simp [h]
    · rw [if_neg h, if_pos (Nat.pos_of_ne_zero h)]
      rfl
  · unfold download_cover_art_url
    by_cases h : vi.thumbnails = []
    · simp [h, bestThumbAux]
    · rw [if_neg h]
      cases hb : bestThumbAux none 0 vi.thumbnails with
      | none => simp
      | some b => simp

/-- C4 counterexample: constructing the limiter with `max_calls = 0`
does not fail — it returns a limiter with the bad configuration stored —
and the first `acquire` on that limiter raises an IndexError on the
empty calls list instead of serving the caller. -/
theorem rate_limiter_zero_constructs :
    mkRateLimiter 0 1 = { max_calls := 0, period := 1, calls := [] } ∧
    RateLimiter.acquire (mkRateLimiter 0 1) 5 7 =
      Except.error "IndexError: list index out of range" :=
  ⟨rfl, rfl⟩

/-- C4 amended: the constructor performs no validation — any
`max_calls`, zero or negative included, is stored unchecked with an
empty window — and with `max_calls ≤ 0` every `acquire` on the fresh
limiter fails with an IndexError (so the misconfiguration surfaces at
the first acquisition, not at construction). -/
theorem rate_limiter_unchecked_construction (mc p : Int) :
    mkRateLimiter mc p = { max_calls := mc, period := p, calls := [] } ∧
    (mc ≤ 0 → ∀ (now now2 : Int),
      RateLimiter.acquire (mkRateLimiter mc p) now now2 =
        Except.error "IndexError: list index out of range") := by
  refine ⟨rfl, ?_⟩
  intro h now now2
  unfold RateLimiter.acquire mkRateLimiter
  simp only [List.filter_nil]
  rw [if_pos (by simpa using h)]

/-- C4 witness: a negative `max_calls` is accepted and the first acquire
errors. -/
theorem rate_limiter_unchecked_construction_witness :
    RateLimiter.acquire (mkRateLimiter (-3) 10) 100 101 =
      Except.error "IndexError: list index out of range" :=
  (rate_limiter_unchecked_construction (-3) 10).2 (by decide) 100 101
